import Mathlib

/-!
# Verification of the `bender` minimum-bending-diameter solver

Shallow embedding of `src/bender.py`.  Python floats are embedded as exact
rationals (`ℚ`); float literals such as `1e-6`, `12e-3` become the exact
rationals `1/1000000`, `12/1000`.  Python's `int()` truncation of the
(non-negative) total thickness is embedded as `Nat.floor`.  Fallible code
(`min([])` raising `ValueError`, exceptions propagating out of the diameter
scan and `solve`) is embedded with `Option`: a `none` at the corresponding
layer models the raised exception.  Division on `ℚ` is total (`x / 0 = 0`);
every place a division is actually reached by the program keeps a nonzero
denominator under the stated hypotheses.
-/

/-- One layer of the composite tape (`VGBendingMaterialData` in
`src/bender.py`): name, superconductor flag, thickness in micrometers,
the three elastic moduli, the two yield stresses and the critical tensile
strain. -/
structure VGBendingMaterialData where
  name : String
  is_superconductor : Bool
  thickness : ℚ
  youngs1 : ℚ
  youngs2 : ℚ
  youngs3 : ℚ
  sigma1 : ℚ
  sigma2 : ℚ
  critical_tensil_strain : ℚ

/-- A superconducting layer's recorded cumulative position paired with its
material data (`CriticalConditions` in `src/bender.py`). -/
structure CriticalConditions where
  pos : ℚ
  material : VGBendingMaterialData

/-- The solver's state (`VGBendingSolver` in `src/bender.py`): the optional
loaded stack `_modell` and the two optional result fields. -/
structure VGBendingSolver where
  modell : Option (List VGBendingMaterialData)
  min_bending_diameter_d : Option ℚ
  min_bending_diameter_u : Option ℚ

/-- `VGBendingSolver._total_thickness` for a loaded stack: the running sum of
the layer thicknesses (the source returns `0.0` when `_modell is None`; the
embedding takes the list directly). -/
def total_thickness (modell : List VGBendingMaterialData) : ℚ :=
  modell.foldl (fun thickness material => thickness + material.thickness) 0

/-- `VGBendingSolver._strain`: bending strain of a fiber at `pos` micrometers
given the neutral-axis position (micrometers) and the bending diameter
(millimeters), `(pos - neutral_axis) * 1e-6 / (diameter / 2 * 1e-3 +
neutral_axis * 1e-6)`. -/
def strain (pos neutral_axis diameter : ℚ) : ℚ :=
  (pos - neutral_axis) * (1 / 1000000) /
    (diameter / 2 * (1 / 1000) + neutral_axis * (1 / 1000000))

/-- The local `max_strain1 = sigma1 / youngs1` computed at the top of
`VGBendingSolver._stress`. -/
def max_strain1 (material : VGBendingMaterialData) : ℚ :=
  material.sigma1 / material.youngs1

/-- The local `max_strain2 = max_strain1 + (sigma2 - sigma1) / youngs2`
computed at the top of `VGBendingSolver._stress`. -/
def max_strain2 (material : VGBendingMaterialData) : ℚ :=
  max_strain1 material + (material.sigma2 - material.sigma1) / material.youngs2

/-- `VGBendingSolver._stress`: the trilinear elastoplastic law.  The branch
structure mirrors the source: for `strain >= 0` the tests are
`strain > max_strain2`, then `strain > max_strain1`, else the elastic branch;
for `strain < 0` the test is `strain > -max_strain1`, else the far
compressive branch using `youngs3`. -/
def stress (strainv : ℚ) (material : VGBendingMaterialData) : ℚ :=
  if 0 ≤ strainv then
    if max_strain2 material < strainv then
      material.sigma2 + (strainv - max_strain2 material) * material.youngs3
    else if max_strain1 material < strainv then
      material.sigma1 + (strainv - max_strain1 material) * material.youngs2
    else
      strainv * material.youngs1
  else
    if -max_strain1 material < strainv then
      strainv * material.youngs1
    else
      -material.sigma1 + (strainv + max_strain1 material) * material.youngs3

/-- The inner loop of `VGBendingSolver._force`: walk the stack accumulating
`max_pos`, and for the first layer with `pos < max_pos` contribute
`stress(epsilon, material) * 1e-6 * width` with `width = 12e-3`; if no layer
encloses `pos` the loop falls through and contributes nothing. -/
def force_increment (epsilon pos : ℚ) : ℚ → List VGBendingMaterialData → ℚ
  | _, [] => 0
  | max_pos, material :: rest =>
    if pos < max_pos + material.thickness then
      stress epsilon material * (1 / 1000000) * (12 / 1000)
    else
      force_increment epsilon pos (max_pos + material.thickness) rest

/-- `VGBendingSolver._force`: sum of the per-position stress contributions for
integer positions `0 .. int(total_thickness) - 1`.  The source reads
`int(self._total_thickness)`, the thickness sum of `self._modell`; every call
made by `solve` passes `modell` equal to `self._modell` or its reverse, whose
thickness sum is the same, so the embedding takes the total thickness of the
`modell` argument. -/
def force (diameter neutral_axis : ℚ) (modell : List VGBendingMaterialData) : ℚ :=
  (List.range (Nat.floor (total_thickness modell))).foldl
    (fun f (pos : ℕ) =>
      f + force_increment (strain (pos : ℚ) neutral_axis diameter) (pos : ℚ) 0 modell)
    0

/-- `VGBendingSolver._position_of_neutral_axis`: build the list
`[abs(force(diameter, value)) for value in range(int(total_thickness))]` and
return `float(forces.index(min(forces)))`.  Python's `min` raises
`ValueError` on an empty list; the embedding returns `none` in that case
(`List.min? [] = none`). -/
def position_of_neutral_axis (diameter : ℚ)
    (modell : List VGBendingMaterialData) : Option ℚ :=
  let forces : List ℚ :=
    (List.range (Nat.floor (total_thickness modell))).map
      (fun (value : ℕ) => |force diameter (value : ℚ) modell|)
  forces.min?.map (fun m => ((forces.indexOf m : ℕ) : ℚ))

/-- The first loop of `VGBendingSolver._min_bending_diameter`: walk the stack
with a running `pos_value`; a non-superconductor adds its thickness to
`pos_value`, a superconductor is recorded at the current `pos_value` (whose
own thickness is never added). -/
def collect_superconductors :
    List VGBendingMaterialData → ℚ → List CriticalConditions
  | [], _ => []
  | material :: rest, pos_value =>
    if material.is_superconductor then
      ⟨pos_value, material⟩ :: collect_superconductors rest pos_value
    else
      collect_superconductors rest (pos_value + material.thickness)

/-- One iteration of the diameter loop of
`VGBendingSolver._min_bending_diameter`.  The accumulator is
`Option (Option ℚ)`: the outer `none` models an exception raised by
`_position_of_neutral_axis` (which then aborts the whole scan), the inner
option is the `bending_diameter` variable.  When `bending_diameter` is still
`None` the body computes the neutral axis and runs the superconductor loop,
which sets `bending_diameter = float(diameter)` whenever
`epsilon > 0 and epsilon > critical_tensil_strain`. -/
def scan_step (modell : List VGBendingMaterialData)
    (superconductors : List CriticalConditions)
    (acc : Option (Option ℚ)) (diameter : ℕ) : Option (Option ℚ) :=
  match acc with
  | none => none
  | some (some b) => some (some b)
  | some none =>
    match position_of_neutral_axis (diameter : ℚ) modell with
    | none => none
    | some neutral_axis =>
      some (superconductors.foldl
        (fun bending_diameter superconductor =>
          if 0 < strain superconductor.pos neutral_axis (diameter : ℚ) ∧
              superconductor.material.critical_tensil_strain <
                strain superconductor.pos neutral_axis (diameter : ℚ) then
            some ((diameter : ℚ))
          else
            bending_diameter)
        none)

/-- `VGBendingSolver._min_bending_diameter`: fold the scan step over the
diameters `range(300, 0, -1) = [300, …, 1]`, starting from
`bending_diameter = None`. -/
def min_bending_diameter (modell : List VGBendingMaterialData) :
    Option (Option ℚ) :=
  ((List.range' 1 300).reverse).foldl
    (scan_step modell (collect_superconductors modell 0)) (some none)

/-- The violation test of the scan at an integer diameter, spelled with the
neutral axis the scan computes for that diameter: some recorded
superconductor has positive strain exceeding its critical tensile strain.
(The `getD 0` is only reached when `position_of_neutral_axis` returns a
value; the scan aborts otherwise.) -/
def scan_violation (modell : List VGBendingMaterialData) (diameter : ℕ) : Prop :=
  ∃ superconductor ∈ collect_superconductors modell 0,
    0 < strain superconductor.pos
        ((position_of_neutral_axis (diameter : ℚ) modell).getD 0) (diameter : ℚ) ∧
    superconductor.material.critical_tensil_strain <
      strain superconductor.pos
        ((position_of_neutral_axis (diameter : ℚ) modell).getD 0) (diameter : ℚ)

instance (modell : List VGBendingMaterialData) (diameter : ℕ) :
    Decidable (scan_violation modell diameter) := by
  unfold scan_violation; infer_instance

/-- `VGBendingSolver.solve`: with no model loaded it only reports and
returns (state unchanged); otherwise it scans the stack as given and the
reversed copy `self._modell[::-1]`, assigns the original-order result to
`min_bending_diameter_u` and the reversed-order result to
`min_bending_diameter_d`.  The outer `Option` models an exception
propagating out of the worker computations. -/
def solve (solver : VGBendingSolver) : Option VGBendingSolver :=
  match solver.modell with
  | none => some solver
  | some modell =>
    match min_bending_diameter modell, min_bending_diameter modell.reverse with
    | some result0, some result1 =>
      some { solver with
        min_bending_diameter_u := result0
        min_bending_diameter_d := result1 }
    | _, _ => none

/-- `VGBendingSolver.min_double_bending_diameter`: each absent field is
replaced by `0.0`, then the maximum of the two is returned. -/
def min_double_bending_diameter (solver : VGBendingSolver) : ℚ :=
  let bending_dia_down : ℚ :=
    match solver.min_bending_diameter_d with
    | some v => v
    | none => 0
  let bending_dia_up : ℚ :=
    match solver.min_bending_diameter_u with
    | some v => v
    | none => 0
  max bending_dia_down bending_dia_up

/-- A superconducting layer of thickness 1/2 μm with unit moduli and a tiny
critical tensile strain, used as concrete input. -/
def matSC : VGBendingMaterialData :=
  { name := "sc", is_superconductor := true, thickness := 1/2,
    youngs1 := 1, youngs2 := 1, youngs3 := 1, sigma1 := 1, sigma2 := 1,
    critical_tensil_strain := 1/1000000000 }

/-- A non-superconducting substrate layer of thickness 1/2 μm, used as
concrete input. -/
def matSub : VGBendingMaterialData :=
  { name := "sub", is_superconductor := false, thickness := 1/2,
    youngs1 := 1, youngs2 := 1, youngs3 := 1, sigma1 := 1, sigma2 := 1,
    critical_tensil_strain := 1/1000000000 }

/-- Concrete stack: superconductor at the bottom face. -/
def stackP : List VGBendingMaterialData := [matSC, matSub]

/-- Concrete stack: the reverse of `stackP`, superconductor at the top. -/
def stackQ : List VGBendingMaterialData := [matSub, matSC]

/-- A solver loaded with `stackP` and no results yet. -/
def solver0 : VGBendingSolver :=
  { modell := some stackP, min_bending_diameter_d := none,
    min_bending_diameter_u := none }

/-- A solver holding the orientation results of `stackQ` (down) and `stackP`
(up). -/
def solver1 : VGBendingSolver :=
  { modell := some stackP, min_bending_diameter_d := some 300,
    min_bending_diameter_u := none }

/-- A solver with no model loaded. -/
def solverEmpty : VGBendingSolver :=
  { modell := none, min_bending_diameter_d := none,
    min_bending_diameter_u := none }

/-- A stack of two superconducting layers, the failing input for the
cumulative-position computation. -/
def doubleSCStack : List VGBendingMaterialData := [matSC, matSC]

/-- A pathological material whose breakpoints are out of order
(`max_strain2 < max_strain1`, only possible outside the data model's
`sigma2 ≥ sigma1 ≥ 0`). -/
def matBad : VGBendingMaterialData :=
  { name := "bad", is_superconductor := false, thickness := 1,
    youngs1 := 1, youngs2 := 1, youngs3 := 2, sigma1 := 1, sigma2 := 0,
    critical_tensil_strain := 1 }

/-- The `forces` list built by `VGBendingSolver._position_of_neutral_axis`:
absolute net force at each candidate integer neutral-axis position. -/
def force_list (diameter : ℚ) (modell : List VGBendingMaterialData) : List ℚ :=
  (List.range (Nat.floor (total_thickness modell))).map
    (fun (value : ℕ) => |force diameter (value : ℚ) modell|)

/-- `position_of_neutral_axis` written through `force_list`. -/
theorem position_eq_force_list (diameter : ℚ)
    (modell : List VGBendingMaterialData) :
    position_of_neutral_axis diameter modell
      = (force_list diameter modell).min?.map
          (fun mv => (((force_list diameter modell).indexOf mv : ℕ) : ℚ)) := rfl

/-- C9: `solve()` invoked while no stack is loaded performs no computation
and returns with both result fields (indeed the whole state) unchanged. -/
theorem solve_not_configured (solver : VGBendingSolver)
    (h : solver.modell = none) : solve solver = some solver := by
  unfold solve
  rw [h]

/-- Witness for C9 at the concrete unloaded solver. -/
theorem solve_not_configured_witness : solve solverEmpty = some solverEmpty :=
  solve_not_configured solverEmpty rfl

/-- The neutral-axis search yields `none` exactly when the truncated total
thickness is 0 (the force list is empty). -/
theorem position_eq_none_iff_aux (diameter : ℚ)
    (modell : List VGBendingMaterialData) :
    position_of_neutral_axis diameter modell = none ↔
      Nat.floor (total_thickness modell) = 0 := by
  unfold position_of_neutral_axis
  cases h : Nat.floor (total_thickness modell) with
  | zero => simp
  | succ k => simp [List.range_succ_eq_map, List.min?_cons']

/-- C10: the neutral-axis search fails (the `min` of an empty force list,
embedded as `none`) exactly when the total thickness truncates to the
integer 0; equivalently a total thickness of at least 1 is the precondition
for it to produce a value. -/
theorem position_of_neutral_axis_none_iff (diameter : ℚ)
    (modell : List VGBendingMaterialData) :
    position_of_neutral_axis diameter modell = none ↔
      Nat.floor (total_thickness modell) = 0 :=
  position_eq_none_iff_aux diameter modell

/-- C6 counterexample: with neutral axis −2000 μm and diameter 2 mm the
strain denominator is negative, and strain strictly decreases from position
0 to position 1 even though the diameter is positive. -/
theorem strain_mono_counterexample :
    (0 : ℚ) < 2 ∧ (0 : ℚ) < 1 ∧
      ¬ strain 0 (-2000) 2 < strain 1 (-2000) 2 := by
  refine ⟨by norm_num, by norm_num, ?_⟩
  unfold strain
  norm_num

/-- C6 (amended): for every fixed neutral axis that is non-negative and
every fixed positive diameter, strain is strictly monotonically increasing
in position. -/
theorem strain_strict_mono (p1 p2 neutral_axis diameter : ℚ)
    (hna : 0 ≤ neutral_axis) (hd : 0 < diameter) (hp : p1 < p2) :
    strain p1 neutral_axis diameter < strain p2 neutral_axis diameter := by
  unfold strain
  have hden : 0 < diameter / 2 * (1 / 1000) + neutral_axis * (1 / 1000000) := by
    have h1 : 0 < diameter / 2 * (1 / 1000 : ℚ) := by positivity
    nlinarith
  rw [div_lt_div_iff_of_pos_right hden]
  have h6 : (0 : ℚ) < 1 / 1000000 := by norm_num
  exact mul_lt_mul_of_pos_right (by linarith) h6

/-- Witness for the amended C6 at positions 0 < 1, neutral axis 0,
diameter 2. -/
theorem strain_strict_mono_witness : strain 0 0 2 < strain 1 0 2 :=
  strain_strict_mono 0 1 0 2 (by norm_num) (by norm_num) (by norm_num)

/-- C4 counterexample: for the out-of-order material `matBad`, the strain
1/2 lies below `max_strain1` yet `stress` does not return
`strain * youngs1` (the code tests `strain > max_strain2` first). -/
theorem stress_trilinear_counterexample :
    (0 : ℚ) ≤ 1/2 ∧ (1/2 : ℚ) ≤ max_strain1 matBad ∧
      stress (1/2) matBad ≠ (1/2 : ℚ) * matBad.youngs1 := by
  refine ⟨by norm_num, by norm_num [max_strain1, matBad], ?_⟩
  norm_num [stress, max_strain1, max_strain2, matBad]

/-- C4 (amended): for every material whose breakpoints are ordered
(`max_strain1 ≤ max_strain2`, guaranteed by the data model's
`sigma2 ≥ sigma1 ≥ 0` with positive `youngs2`) and every strain, `stress`
follows the trilinear law: `max_strain1 = sigma1 / youngs1`,
`max_strain2 = max_strain1 + (sigma2 - sigma1) / youngs2`; for
`strain ≥ 0` it returns `strain * youngs1` up to `max_strain1`,
`sigma1 + (strain - max_strain1) * youngs2` up to `max_strain2` and
`sigma2 + (strain - max_strain2) * youngs3` beyond; for `strain < 0` it
returns `strain * youngs1` when `strain > -max_strain1` and otherwise
`-sigma1 + (strain + max_strain1) * youngs3`, so `youngs3` and never
`youngs2` governs the far compressive branch. -/
theorem stress_trilinear (strainv : ℚ) (m : VGBendingMaterialData)
    (hms : max_strain1 m ≤ max_strain2 m) :
    max_strain1 m = m.sigma1 / m.youngs1 ∧
    max_strain2 m = max_strain1 m + (m.sigma2 - m.sigma1) / m.youngs2 ∧
    (0 ≤ strainv → strainv ≤ max_strain1 m →
      stress strainv m = strainv * m.youngs1) ∧
    (0 ≤ strainv → max_strain1 m < strainv → strainv ≤ max_strain2 m →
      stress strainv m = m.sigma1 + (strainv - max_strain1 m) * m.youngs2) ∧
    (0 ≤ strainv → max_strain2 m < strainv →
      stress strainv m = m.sigma2 + (strainv - max_strain2 m) * m.youngs3) ∧
    (strainv < 0 → -max_strain1 m < strainv →
      stress strainv m = strainv * m.youngs1) ∧
    (strainv < 0 → strainv ≤ -max_strain1 m →
      stress strainv m = -m.sigma1 + (strainv + max_strain1 m) * m.youngs3) := by
  refine ⟨rfl, rfl, ?_, ?_, ?_, ?_, ?_⟩ <;> intros <;> unfold stress <;>
    split_ifs <;> first | rfl | linarith

/-- Witness for the amended C4: the elastic branch at strain 0 for the
concrete material `matSC`. -/
theorem stress_trilinear_witness : stress 0 matSC = 0 * matSC.youngs1 :=
  (stress_trilinear 0 matSC
      (by norm_num [max_strain1, max_strain2, matSC])).2.2.1
    (by norm_num) (by norm_num [max_strain1, matSC])

/-- C8: for a material with positive moduli and `sigma2 ≥ sigma1 ≥ 0`, the
stress law is continuous at both breakpoints: the adjacent branch values
agree there (`max_strain1 * youngs1 = sigma1` and
`sigma1 + (max_strain2 - max_strain1) * youngs2 = sigma2`), and `stress`
itself takes those common values. -/
theorem stress_continuous_at_breakpoints (m : VGBendingMaterialData)
    (hy1 : 0 < m.youngs1) (hy2 : 0 < m.youngs2) (hy3 : 0 < m.youngs3)
    (hs1 : 0 ≤ m.sigma1) (hs12 : m.sigma1 ≤ m.sigma2) :
    stress (max_strain1 m) m = m.sigma1 ∧
    stress (max_strain2 m) m = m.sigma2 ∧
    max_strain1 m * m.youngs1 = m.sigma1 ∧
    m.sigma1 + (max_strain2 m - max_strain1 m) * m.youngs2 = m.sigma2 := by
  have hms1 : 0 ≤ max_strain1 m := div_nonneg hs1 hy1.le
  have hgapq : 0 ≤ (m.sigma2 - m.sigma1) / m.youngs2 :=
    div_nonneg (sub_nonneg.2 hs12) hy2.le
  have hgap : max_strain1 m ≤ max_strain2 m := by
    unfold max_strain2
    linarith
  have h3 : max_strain1 m * m.youngs1 = m.sigma1 := by
    unfold max_strain1
    field_simp
  have hdiff : max_strain2 m - max_strain1 m = (m.sigma2 - m.sigma1) / m.youngs2 := by
    unfold max_strain2
    ring
  have h4 : m.sigma1 + (max_strain2 m - max_strain1 m) * m.youngs2 = m.sigma2 := by
    rw [hdiff, div_mul_cancel₀ _ hy2.ne']
    ring
  have hA : stress (max_strain1 m) m = m.sigma1 := by
    unfold stress
    rw [if_pos hms1, if_neg (not_lt.2 hgap), if_neg (lt_irrefl _)]
    exact h3
  have hB : stress (max_strain2 m) m = m.sigma2 := by
    have hms2 : 0 ≤ max_strain2 m := le_trans hms1 hgap
    unfold stress
    rw [if_pos hms2, if_neg (lt_irrefl _)]
    by_cases hlt : max_strain1 m < max_strain2 m
    · rw [if_pos hlt]
      exact h4
    · rw [if_neg hlt]
      have heq : max_strain1 m = max_strain2 m := le_antisymm hgap (not_lt.1 hlt)
      have hss : m.sigma1 = m.sigma2 := by
        have h5 := h4
        rw [← heq] at h5
        simpa using h5
      rw [← heq, h3, hss]
  exact ⟨hA, hB, h3, h4⟩

/-- Witness for C8 at the concrete material `matSC`. -/
theorem stress_continuous_at_breakpoints_witness :
    stress (max_strain1 matSC) matSC = matSC.sigma1 :=
  (stress_continuous_at_breakpoints matSC (by norm_num [matSC])
    (by norm_num [matSC]) (by norm_num [matSC]) (by norm_num [matSC])
    (by norm_num [matSC])).1

/-- C2: on a stack of two superconducting layers the code records position 0
for the second layer, although the thicknesses of the layers preceding it
sum to 1/2 (a superconductor's own thickness is never added to the running
position). -/
theorem collect_superconductors_on_double_sc :
    (collect_superconductors doubleSCStack 0).map CriticalConditions.pos
        = [0, 0] ∧
    ((doubleSCStack.take 1).map VGBendingMaterialData.thickness).sum = 1/2 ∧
    (1 : ℚ)/2 ≠ 0 := by
  refine ⟨?_, ?_, by norm_num⟩
  · simp [collect_superconductors, doubleSCStack, matSC]
  · norm_num [doubleSCStack, matSC]

/-- The superconductor loop of the scan: starting from any accumulator it
returns `some d` when some recorded superconductor violates at neutral axis
`na` and diameter `d`, and the accumulator otherwise. -/
theorem scan_inner_foldl (d na : ℚ) (scs : List CriticalConditions)
    (a0 : Option ℚ) :
    scs.foldl
      (fun bending_diameter superconductor =>
        if 0 < strain superconductor.pos na d ∧
            superconductor.material.critical_tensil_strain <
              strain superconductor.pos na d then
          some d
        else
          bending_diameter) a0
      = if ∃ sc ∈ scs, 0 < strain sc.pos na d ∧
            sc.material.critical_tensil_strain < strain sc.pos na d then
          some d
        else a0 := by
  induction scs generalizing a0 with
  | nil => simp
  | cons sc rest ih =>
    simp only [List.foldl_cons, ih, List.exists_mem_cons_iff]
    by_cases hrest : ∃ x ∈ rest, 0 < strain x.pos na d ∧
        x.material.critical_tensil_strain < strain x.pos na d
    · rw [if_pos hrest, if_pos (Or.inr hrest)]
    · rw [if_neg hrest]
      by_cases hsc : 0 < strain sc.pos na d ∧
          sc.material.critical_tensil_strain < strain sc.pos na d
      · rw [if_pos hsc, if_pos (Or.inl hsc)]
      · rw [if_neg hsc, if_neg (not_or.mpr ⟨hsc, hrest⟩)]

/-- Once the scan state records a raised exception, folding any further
diameters keeps it. -/
theorem scan_foldl_none (m : List VGBendingMaterialData)
    (scs : List CriticalConditions) (ds : List ℕ) :
    ds.foldl (scan_step m scs) none = none := by
  induction ds with
  | nil => rfl
  | cons d rest ih =>
    simp only [List.foldl_cons]
    exact ih

/-- Once the scan state holds a found diameter, folding any further
diameters keeps it (the source skips the body when `bending_diameter` is
not `None`). -/
theorem scan_foldl_found (m : List VGBendingMaterialData)
    (scs : List CriticalConditions) (b : ℚ) (ds : List ℕ) :
    ds.foldl (scan_step m scs) (some (some b)) = some (some b) := by
  induction ds with
  | nil => rfl
  | cons d rest ih =>
    simp only [List.foldl_cons]
    exact ih

/-- When the truncated total thickness is at least 1 the neutral-axis search
produces a value. -/
theorem position_isSome_of_floor (d : ℚ) (m : List VGBendingMaterialData)
    (htt : 1 ≤ Nat.floor (total_thickness m)) :
    ∃ v, position_of_neutral_axis d m = some v := by
  rcases h : position_of_neutral_axis d m with _ | v
  · rw [position_eq_none_iff_aux] at h
    omega
  · exact ⟨v, rfl⟩

/-- When the truncated total thickness is exactly 1 the force list is a
singleton, so the neutral-axis search returns position 0 for every
diameter. -/
theorem position_floor_one (d : ℚ) (m : List VGBendingMaterialData)
    (h : Nat.floor (total_thickness m) = 1) :
    position_of_neutral_axis d m = some 0 := by
  unfold position_of_neutral_axis
  rw [h]
  show ((List.range 1).map (fun (value : ℕ) => |force d (value : ℚ) m|)).min?.map
      (fun mv =>
        (((((List.range 1).map
            (fun (value : ℕ) => |force d (value : ℚ) m|)).indexOf mv : ℕ)) : ℚ))
      = some 0
  rw [show List.range 1 = [0] from rfl, List.map_cons, List.map_nil]
  rw [show ([|force d ((0 : ℕ) : ℚ) m|] : List ℚ).min?
      = some |force d ((0 : ℕ) : ℚ) m| from rfl]
  rw [Option.map_some', List.indexOf_cons_self]
  norm_num

/-- On a strictly descending list, `find?` returns an element exactly when it
is a member satisfying the test and every larger member fails it. -/
theorem find?_eq_some_of_sorted_gt (p : ℕ → Bool) :
    ∀ (l : List ℕ), l.Pairwise (· > ·) → ∀ a : ℕ,
      (l.find? p = some a ↔
        a ∈ l ∧ p a = true ∧ ∀ b ∈ l, a < b → p b = false) := by
  intro l
  induction l with
  | nil => simp
  | cons c t ih =>
    intro hpw a
    rw [List.pairwise_cons] at hpw
    by_cases hc : p c = true
    · rw [List.find?_cons_of_pos _ hc]
      constructor
      · intro hac
        have hca : c = a := by
          simpa using hac
        subst hca
        refine ⟨List.mem_cons_self _ _, hc, ?_⟩
        intro b hb hcb
        rcases List.mem_cons.1 hb with hbc | hbt
        · omega
        · exact absurd (hpw.1 b hbt) (by omega)
      · rintro ⟨ha, hpa, hall⟩
        rcases List.mem_cons.1 ha with hac | hat
        · rw [hac]
        · have hca : a < c := hpw.1 a hat
          have := hall c (List.mem_cons_self _ _) hca
          rw [this] at hc
          exact absurd hc (by simp)
    · have hcf : p c = false := by
        exact Bool.eq_false_iff.mpr hc
      rw [List.find?_cons_of_neg _ (by simp [hcf])]
      rw [ih hpw.2 a]
      constructor
      · rintro ⟨hat, hpa, hall⟩
        refine ⟨List.mem_cons_of_mem _ hat, hpa, ?_⟩
        intro b hb hab
        rcases List.mem_cons.1 hb with hbc | hbt
        · rw [hbc]
          exact hcf
        · exact hall b hbt hab
      · rintro ⟨ha, hpa, hall⟩
        rcases List.mem_cons.1 ha with hac | hat
        · rw [hac] at hpa
          exact absurd hpa hc
        · exact ⟨hat, hpa, fun b hb hab => hall b (List.mem_cons_of_mem _ hb) hab⟩

/-- Membership in the reversed diameter range. -/
theorem mem_reverse_range' (d : ℕ) :
    d ∈ (List.range' 1 300).reverse ↔ 1 ≤ d ∧ d ≤ 300 := by
  rw [List.mem_reverse, List.mem_range'_1]
  omega

/-- The reversed diameter range is strictly descending. -/
theorem pairwise_reverse_range' :
    ((List.range' 1 300).reverse).Pairwise (· > ·) := by
  rw [List.pairwise_reverse]
  exact List.pairwise_lt_range' 1 300

/-- The reversed diameter range starts with 300. -/
theorem reverse_range'_cons :
    (List.range' 1 300).reverse = 300 :: (List.range' 1 299).reverse := by
  rw [(by norm_num : (300 : ℕ) = 299 + 1), List.range'_1_concat]
  simp

/-- Folding the scan step from the running state over any diameter list,
when the neutral-axis search always succeeds (truncated total thickness at
least 1), terminates normally and returns the first diameter of the list
that triggers a violation. -/
theorem scan_foldl_eq_find (m : List VGBendingMaterialData)
    (htt : 1 ≤ Nat.floor (total_thickness m)) (ds : List ℕ) :
    ds.foldl (scan_step m (collect_superconductors m 0)) (some none)
      = some ((ds.find? (fun d => decide (scan_violation m d))).map
          (fun d => ((d : ℕ) : ℚ))) := by
  induction ds with
  | nil => rfl
  | cons d rest ih =>
    obtain ⟨na, hna⟩ := position_isSome_of_floor (d : ℚ) m htt
    have hgetD : (position_of_neutral_axis (d : ℚ) m).getD 0 = na := by
      rw [hna]
      rfl
    have hstep : scan_step m (collect_superconductors m 0) (some none) d
        = some (if scan_violation m d then some ((d : ℚ)) else none) := by
      show (match position_of_neutral_axis (d : ℚ) m with
        | none => none
        | some neutral_axis =>
          some ((collect_superconductors m 0).foldl
            (fun bending_diameter superconductor =>
              if 0 < strain superconductor.pos neutral_axis (d : ℚ) ∧
                  superconductor.material.critical_tensil_strain <
                    strain superconductor.pos neutral_axis (d : ℚ) then
                some ((d : ℚ))
              else
                bending_diameter)
            none) : Option (Option ℚ))
        = some (if scan_violation m d then some ((d : ℚ)) else none)
      rw [hna]
      simp only
      rw [scan_inner_foldl]
      congr 1
      unfold scan_violation
      simp only [hgetD]
    simp only [List.foldl_cons, hstep]
    by_cases hv : scan_violation m d
    · rw [if_pos hv]
      rw [scan_foldl_found]
      rw [List.find?_cons_of_pos _ (by simpa using hv)]
      rfl
    · rw [if_neg hv]
      rw [ih]
      rw [List.find?_cons_of_neg _ (by simpa using hv)]

/-- The scan result characterized through `find?` over the descending
diameter list. -/
theorem min_bending_diameter_eq_find (m : List VGBendingMaterialData)
    (htt : 1 ≤ Nat.floor (total_thickness m)) :
    min_bending_diameter m
      = some ((((List.range' 1 300).reverse).find?
            (fun d => decide (scan_violation m d))).map
          (fun d => ((d : ℕ) : ℚ))) :=
  scan_foldl_eq_find m htt _

/-- When the truncated total thickness is 0 the very first scan iteration
raises (empty force list), so the whole scan aborts. -/
theorem min_bending_diameter_none_of_floor_zero (m : List VGBendingMaterialData)
    (h0 : Nat.floor (total_thickness m) = 0) :
    min_bending_diameter m = none := by
  unfold min_bending_diameter
  rw [reverse_range'_cons]
  simp only [List.foldl_cons]
  have hpos : position_of_neutral_axis ((300 : ℕ) : ℚ) m = none := by
    rw [position_eq_none_iff_aux]
    exact h0
  have hstep : scan_step m (collect_superconductors m 0) (some none) 300 = none := by
    show (match position_of_neutral_axis ((300 : ℕ) : ℚ) m with
      | none => none
      | some neutral_axis =>
        some ((collect_superconductors m 0).foldl
          (fun bending_diameter superconductor =>
            if 0 < strain superconductor.pos neutral_axis ((300 : ℕ) : ℚ) ∧
                superconductor.material.critical_tensil_strain <
                  strain superconductor.pos neutral_axis ((300 : ℕ) : ℚ) then
              some (((300 : ℕ) : ℚ))
            else
              bending_diameter)
          none) : Option (Option ℚ)) = none
    rw [hpos]
  rw [hstep]
  exact scan_foldl_none m _ _

/-- C3: for a stack whose truncated total thickness is at least 1 (so every
neutral-axis search succeeds), the per-orientation scan terminates and
returns exactly the largest integer diameter in [1, 300] at which some
recorded superconducting layer has positive strain exceeding its critical
tensile strain — and `none` when no diameter in [1, 300] triggers a
violation. -/
theorem min_bending_diameter_spec (modell : List VGBendingMaterialData)
    (htt : 1 ≤ Nat.floor (total_thickness modell)) :
    (∀ n : ℕ, (min_bending_diameter modell = some (some (n : ℚ)) ↔
        (1 ≤ n ∧ n ≤ 300 ∧ scan_violation modell n ∧
          ∀ b : ℕ, n < b → b ≤ 300 → ¬ scan_violation modell b))) ∧
    (min_bending_diameter modell = some none ↔
      ∀ b : ℕ, 1 ≤ b → b ≤ 300 → ¬ scan_violation modell b) := by
  have hchar := min_bending_diameter_eq_find modell htt
  constructor
  · intro n
    rw [hchar, Option.some_inj, Option.map_eq_some']
    constructor
    · rintro ⟨a, hfind, hcast⟩
      obtain ⟨hmem, hpa, hall⟩ :=
        (find?_eq_some_of_sorted_gt _ _ pairwise_reverse_range' a).1 hfind
      have han : a = n := by
        exact_mod_cast hcast
      subst han
      obtain ⟨h1, h2⟩ := (mem_reverse_range' a).1 hmem
      refine ⟨h1, h2, of_decide_eq_true hpa, ?_⟩
      intro b hab hb300 hvb
      have hfalse : decide (scan_violation modell b) = false :=
        hall b ((mem_reverse_range' b).2 ⟨by omega, hb300⟩) hab
      rw [decide_eq_true hvb] at hfalse
      exact absurd hfalse (by simp)
    · rintro ⟨h1, h2, hv, hall⟩
      refine ⟨n, ?_, rfl⟩
      apply (find?_eq_some_of_sorted_gt _ _ pairwise_reverse_range' n).2
      refine ⟨(mem_reverse_range' n).2 ⟨h1, h2⟩, decide_eq_true hv, ?_⟩
      intro b hbmem hnb
      obtain ⟨hb1, hb2⟩ := (mem_reverse_range' b).1 hbmem
      exact decide_eq_false (hall b hnb hb2)
  · rw [hchar, Option.some_inj, Option.map_eq_none', List.find?_eq_none]
    constructor
    · intro h b hb1 hb2 hv
      have := h b ((mem_reverse_range' b).2 ⟨hb1, hb2⟩)
      exact this (by simpa using hv)
    · intro h b hbmem
      obtain ⟨hb1, hb2⟩ := (mem_reverse_range' b).1 hbmem
      simp [h b hb1 hb2]

/-- The concrete stack `stackP` has total thickness 1. -/
theorem tt_stackP : total_thickness stackP = 1 := by
  show ((0 : ℚ) + matSC.thickness) + matSub.thickness = 1
  norm_num [matSC, matSub]

/-- The concrete stack `stackQ` has total thickness 1. -/
theorem tt_stackQ : total_thickness stackQ = 1 := by
  show ((0 : ℚ) + matSub.thickness) + matSC.thickness = 1
  norm_num [matSC, matSub]

/-- The truncated total thickness of `stackP` is 1. -/
theorem floor_tt_stackP : Nat.floor (total_thickness stackP) = 1 := by
  rw [tt_stackP]
  exact Nat.floor_one

/-- The truncated total thickness of `stackQ` is 1. -/
theorem floor_tt_stackQ : Nat.floor (total_thickness stackQ) = 1 := by
  rw [tt_stackQ]
  exact Nat.floor_one

/-- The recorded superconductors of `stackP`: the bottom layer at position 0. -/
theorem collect_stackP :
    collect_superconductors stackP 0 = [⟨0, matSC⟩] := by
  simp [collect_superconductors, stackP, matSC, matSub]

/-- The recorded superconductors of `stackQ`: the top layer at position 1/2. -/
theorem collect_stackQ :
    collect_superconductors stackQ 0 = [⟨1/2, matSC⟩] := by
  simp [collect_superconductors, stackQ, matSC, matSub]

/-- No diameter triggers a violation for `stackP`: its superconductor sits at
position 0, which is the neutral axis, so its strain is 0. -/
theorem not_violation_stackP (d : ℕ) : ¬ scan_violation stackP d := by
  unfold scan_violation
  rw [collect_stackP, position_floor_one _ _ floor_tt_stackP]
  simp [strain]

/-- Diameter 300 triggers a violation for `stackQ`: its superconductor sits
at position 1/2 above the neutral axis 0, giving strain 1/300000, which is
positive and above the critical 1e-9. -/
theorem violation_stackQ_300 : scan_violation stackQ 300 := by
  unfold scan_violation
  rw [collect_stackQ, position_floor_one _ _ floor_tt_stackQ]
  refine ⟨⟨1/2, matSC⟩, List.mem_singleton.2 rfl, ?_, ?_⟩ <;>
    norm_num [strain, matSC]

/-- The scan of `stackP` terminates with no violation found. -/
theorem scanP_eq : min_bending_diameter stackP = some none := by
  rw [min_bending_diameter_eq_find stackP (by simp [floor_tt_stackP])]
  rw [List.find?_eq_none.2 (fun x _ => by simp [not_violation_stackP x])]
  rfl

/-- The scan of `stackQ` terminates at the very first diameter, 300. -/
theorem scanQ_eq : min_bending_diameter stackQ = some (some (300 : ℚ)) := by
  rw [min_bending_diameter_eq_find stackQ (by simp [floor_tt_stackQ])]
  rw [reverse_range'_cons]
  simp [violation_stackQ_300]

/-- Witness for C3: the no-violation characterization instantiated at the
concrete stack `stackP`. -/
theorem min_bending_diameter_spec_witness :
    min_bending_diameter stackP = some none ↔
      ∀ b : ℕ, 1 ≤ b → b ≤ 300 → ¬ scan_violation stackP b :=
  (min_bending_diameter_spec stackP (by simp [floor_tt_stackP])).2

/-- C1 (amended): for every loaded stack, `solve()` assigns the result of
scanning the stack in its original order to `min_bending_diameter_up` and
the result of scanning the reversed stack to `min_bending_diameter_down` —
the opposite of the claimed assignment. -/
theorem solve_orientation_assignment (solver : VGBendingSolver)
    (m : List VGBendingMaterialData) (hm : solver.modell = some m)
    (r0 r1 : Option ℚ) (h0 : min_bending_diameter m = some r0)
    (h1 : min_bending_diameter m.reverse = some r1) :
    solve solver = some { solver with
      min_bending_diameter_u := r0
      min_bending_diameter_d := r1 } := by
  unfold solve
  rw [hm]
  simp only
  rw [h0, h1]

/-- C1 counterexample: for the solver loaded with the concrete stack
`stackP`, the `min_bending_diameter_d` field after `solve` is the result of
scanning the reversed stack, not the result of scanning the stack in its
original order (the two scans differ on this stack). -/
theorem solve_orientation_counterexample :
    (solve solver0).map VGBendingSolver.min_bending_diameter_d ≠
        (min_bending_diameter stackP).map id ∧
      (solve solver0).map VGBendingSolver.min_bending_diameter_d =
        (min_bending_diameter stackP.reverse).map id ∧
      (solve solver0).map VGBendingSolver.min_bending_diameter_u =
        (min_bending_diameter stackP).map id := by
  have hrev : stackP.reverse = stackQ := rfl
  have hsolve : solve solver0 = some { solver0 with
      min_bending_diameter_u := none
      min_bending_diameter_d := some (300 : ℚ) } := by
    unfold solve
    rw [show solver0.modell = some stackP from rfl]
    simp only
    rw [scanP_eq, hrev, scanQ_eq]
    rfl
  rw [hsolve, hrev, scanP_eq, scanQ_eq]
  refine ⟨by simp, by simp, by simp⟩

/-- Witness for the amended C1 at the concrete solver `solver0`. -/
theorem solve_orientation_assignment_witness :
    solve solver0 = some { solver0 with
      min_bending_diameter_u := none
      min_bending_diameter_d := some (300 : ℚ) } :=
  solve_orientation_assignment solver0 stackP rfl none (some (300 : ℚ))
    scanP_eq (by rw [show stackP.reverse = stackQ from rfl]; exact scanQ_eq)

/-- A scan that terminates normally was run on a stack whose truncated total
thickness is at least 1. -/
theorem scan_result_floor (m : List VGBendingMaterialData) (r : Option ℚ)
    (h : min_bending_diameter m = some r) :
    1 ≤ Nat.floor (total_thickness m) := by
  by_contra hc
  have h0 : Nat.floor (total_thickness m) = 0 := by omega
  rw [min_bending_diameter_none_of_floor_zero m h0] at h
  exact Option.noConfusion h

/-- Any value found by a terminating scan is a diameter from [1, 300], so
its default-0 reading is non-negative. -/
theorem scan_result_nonneg (m : List VGBendingMaterialData) (r : Option ℚ)
    (h : min_bending_diameter m = some r) : 0 ≤ r.getD 0 := by
  have htt := scan_result_floor m r h
  rw [min_bending_diameter_eq_find m htt, Option.some_inj] at h
  rcases hfind : ((List.range' 1 300).reverse).find?
      (fun d => decide (scan_violation m d)) with _ | d
  · rw [hfind] at h
    simp only [Option.map_none'] at h
    rw [← h]
    rfl
  · rw [hfind] at h
    simp only [Option.map_some'] at h
    rw [← h]
    simp

/-- C7: when the two optional result fields hold per-orientation scan
results, `min_double_bending_diameter` is the maximum of the two with an
absent value read as 0, and it is non-negative. -/
theorem min_double_bending_diameter_spec (solver : VGBendingSolver)
    (m1 m2 : List VGBendingMaterialData)
    (hd : min_bending_diameter m1 = some solver.min_bending_diameter_d)
    (hu : min_bending_diameter m2 = some solver.min_bending_diameter_u) :
    min_double_bending_diameter solver =
        max (solver.min_bending_diameter_d.getD 0)
          (solver.min_bending_diameter_u.getD 0) ∧
      0 ≤ min_double_bending_diameter solver := by
  have h1 := scan_result_nonneg m1 _ hd
  have h2 := scan_result_nonneg m2 _ hu
  have heq : min_double_bending_diameter solver =
      max (solver.min_bending_diameter_d.getD 0)
        (solver.min_bending_diameter_u.getD 0) := by
    unfold min_double_bending_diameter
    rcases solver.min_bending_diameter_d with _ | v <;>
      rcases solver.min_bending_diameter_u with _ | w <;> rfl
  refine ⟨heq, ?_⟩
  rw [heq]
  exact le_max_of_le_left h1

/-- Witness for C7: the solver holding the scan results of `stackQ` (down)
and `stackP` (up). -/
theorem min_double_bending_diameter_spec_witness :
    min_double_bending_diameter solver1 =
        max (solver1.min_bending_diameter_d.getD 0)
          (solver1.min_bending_diameter_u.getD 0) ∧
      0 ≤ min_double_bending_diameter solver1 :=
  min_double_bending_diameter_spec solver1 stackQ stackP scanQ_eq scanP_eq

/-- C5: for every diameter and every stack of total thickness at least 1,
the neutral-axis search returns the integer position in
`0 .. floor(total_thickness) - 1` minimizing the absolute net force, taking
the lowest index on ties; in particular the value lies in
`[0, total_thickness)`. -/
theorem position_of_neutral_axis_spec (diameter : ℚ)
    (modell : List VGBendingMaterialData) (h : 1 ≤ total_thickness modell) :
    ∃ p : ℕ,
      position_of_neutral_axis diameter modell = some (p : ℚ) ∧
      p < Nat.floor (total_thickness modell) ∧
      (∀ q : ℕ, q < Nat.floor (total_thickness modell) →
        |force diameter (p : ℚ) modell| ≤ |force diameter (q : ℚ) modell|) ∧
      (∀ q : ℕ, q < Nat.floor (total_thickness modell) →
        |force diameter (q : ℚ) modell| = |force diameter (p : ℚ) modell| →
        p ≤ q) ∧
      0 ≤ (p : ℚ) ∧ (p : ℚ) < total_thickness modell := by
  have h0 : (0 : ℚ) ≤ total_thickness modell := le_trans zero_le_one h
  have hn1 : 1 ≤ Nat.floor (total_thickness modell) :=
    Nat.le_floor (by exact_mod_cast h)
  have hlen : (force_list diameter modell).length
      = Nat.floor (total_thickness modell) := by
    simp [force_list]
  have hgetElem : ∀ (i : ℕ) (hi : i < (force_list diameter modell).length),
      (force_list diameter modell)[i] = |force diameter (i : ℚ) modell| := by
    intro i hi
    simp [force_list]
  obtain ⟨mv, hmin⟩ : ∃ mv, (force_list diameter modell).min? = some mv := by
    rcases hm2 : (force_list diameter modell).min? with _ | mv
    · rw [List.min?_eq_none_iff] at hm2
      rw [hm2] at hlen
      simp at hlen
      omega
    · exact ⟨mv, rfl⟩
  have hmem : mv ∈ force_list diameter modell :=
    List.min?_mem (fun a b => min_choice a b) hmin
  have hle : ∀ b ∈ force_list diameter modell, mv ≤ b :=
    fun b hb =>
      ((List.le_min?_iff (fun a b c => le_min_iff) hmin).1 (le_refl mv)) b hb
  have hplen : (force_list diameter modell).indexOf mv
      < (force_list diameter modell).length :=
    List.indexOf_lt_length.2 hmem
  have hfp : |force diameter
      (((force_list diameter modell).indexOf mv : ℕ) : ℚ) modell| = mv := by
    have hpval := List.getElem_indexOf hplen
    rw [hgetElem _ hplen] at hpval
    exact hpval
  refine ⟨(force_list diameter modell).indexOf mv, ?_, by omega, ?_, ?_, ?_, ?_⟩
  · rw [position_eq_force_list, hmin]
    rfl
  · intro q hq
    have hqlen : q < (force_list diameter modell).length := by omega
    have h2 := hle _ (List.getElem_mem hqlen)
    rw [hgetElem q hqlen] at h2
    rw [hfp]
    exact h2
  · intro q hq heq
    by_contra hqp
    push_neg at hqp
    have hqlen : q < (force_list diameter modell).length := by omega
    have hfind : q < (force_list diameter modell).findIdx (fun x => x == mv) := by
      simpa [List.indexOf] using hqp
    have hne := List.not_of_lt_findIdx hfind
    have hval : (force_list diameter modell)[q] = mv := by
      rw [hgetElem q hqlen, heq, hfp]
    simp [hval] at hne
  · exact Nat.cast_nonneg _
  · have hpn : (force_list diameter modell).indexOf mv
        < Nat.floor (total_thickness modell) := by omega
    have hcast : (((force_list diameter modell).indexOf mv : ℕ) : ℚ)
        < ((Nat.floor (total_thickness modell) : ℕ) : ℚ) := by
      exact_mod_cast hpn
    have hfl : ((Nat.floor (total_thickness modell) : ℕ) : ℚ)
        ≤ total_thickness modell := Nat.floor_le h0
    linarith

/-- Witness for C5 at diameter 60 and the concrete stack `stackP`. -/
theorem position_of_neutral_axis_spec_witness :
    ∃ p : ℕ,
      position_of_neutral_axis 60 stackP = some (p : ℚ) ∧
      p < Nat.floor (total_thickness stackP) ∧
      (∀ q : ℕ, q < Nat.floor (total_thickness stackP) →
        |force 60 (p : ℚ) stackP| ≤ |force 60 (q : ℚ) stackP|) ∧
      (∀ q : ℕ, q < Nat.floor (total_thickness stackP) →
        |force 60 (q : ℚ) stackP| = |force 60 (p : ℚ) stackP| → p ≤ q) ∧
      0 ≤ (p : ℚ) ∧ (p : ℚ) < total_thickness stackP :=
  position_of_neutral_axis_spec 60 stackP (le_of_eq tt_stackP.symm)
